import Mathlib

set_option maxRecDepth 100000

/-!
Verification development for the PPK codec of ppk-to-openssh.

The definitions below are a shallow embedding of `src/ppk-parser.js`
(classes `PPKParser`, `PPKError`, `BinaryReader`).  Byte buffers are
modelled as `List Nat` with every entry a value below 256; JavaScript
strings are Lean `String`s and are converted to bytes with the UTF-8
encoder, matching `Buffer.from(s, 'utf8')`.  The hash primitives that the
source obtains from `require('crypto')` (`sha1`, `sha256`) are implemented
here as executable pure functions so that concrete values can be computed
inside proofs.
-/

namespace Ppk

/-- Big-endian 4-byte encoding of a 32-bit value, as produced by
Node's `Buffer.writeUInt32BE` (values in the source are below 2^32). -/
def writeUInt32BE (n : Nat) : List Nat :=
  [n / 16777216 % 256, n / 65536 % 256, n / 256 % 256, n % 256]

/-- Big-endian interpretation of a byte list, as read by
Node's `Buffer.readUInt32BE` on a 4-byte slice. -/
def bytesToWordBE (b : List Nat) : Nat :=
  b.foldl (fun a x => a * 256 + x) 0

/-- UTF-8 encoding of a single character (the standard 1- to 4-byte forms). -/
def utf8EncodeChar (c : Char) : List Nat :=
  let n := c.toNat
  if n < 128 then [n]
  else if n < 2048 then [192 ||| (n >>> 6), 128 ||| (n &&& 63)]
  else if n < 65536 then
    [224 ||| (n >>> 12), 128 ||| ((n >>> 6) &&& 63), 128 ||| (n &&& 63)]
  else
    [240 ||| (n >>> 18), 128 ||| ((n >>> 12) &&& 63),
     128 ||| ((n >>> 6) &&& 63), 128 ||| (n &&& 63)]

/-- UTF-8 encoding of a character list, matching `Buffer.from(s, 'utf8')`.
JavaScript strings produced by the text parser are modelled as `List Char`
so that every operation on them is kernel-computable. -/
def utf8EncodeChars (cs : List Char) : List Nat :=
  (cs.map utf8EncodeChar).flatten

/-- UTF-8 encoding of a Lean string literal. -/
def utf8Encode (s : String) : List Nat :=
  utf8EncodeChars s.data

/-- JavaScript `s.trim()`: remove whitespace from both ends. -/
def jsTrim (cs : List Char) : List Char :=
  ((cs.dropWhile Char.isWhitespace).reverse.dropWhile Char.isWhitespace).reverse

/-- JavaScript `s.split(sep)` for a single-character separator: split at
every occurrence, keeping empty pieces (the result is never empty). -/
def splitOnCharGo (sep : Char) : List Char → List Char → List (List Char)
  | [], acc => [acc.reverse]
  | c :: rest, acc =>
    if c = sep then acc.reverse :: splitOnCharGo sep rest []
    else splitOnCharGo sep rest (c :: acc)

/-- JavaScript `s.split(sep)` for a single-character separator. -/
def splitOnChar (sep : Char) (cs : List Char) : List (List Char) :=
  splitOnCharGo sep cs []

/-- JavaScript `parts.join(sep)` for a single-character separator. -/
def joinChars (sep : Char) : List (List Char) → List Char
  | [] => []
  | [x] => x
  | x :: rest => x ++ sep :: joinChars sep rest

/-- `PPKParser.encodeString` / `PPKParser.encodeBuffer`
(ppk-parser.js:603-608, 1074-1078): a u32 big-endian length prefix
followed by the raw bytes. -/
def encodeString (b : List Nat) : List Nat :=
  writeUInt32BE b.length ++ b

/-- 32-bit right rotation. -/
def rotr32 (n x : Nat) : Nat :=
  ((x >>> n) ||| (x <<< (32 - n))) % 4294967296

/-- 32-bit left rotation. -/
def rotl32 (n x : Nat) : Nat :=
  ((x <<< n) ||| (x >>> (32 - n))) % 4294967296

/-- Split a byte list into blocks of 64 bytes (fuel-driven recursion). -/
def toBlocks : Nat → List Nat → List (List Nat)
  | 0, _ => []
  | _, [] => []
  | fuel + 1, l => l.take 64 :: toBlocks fuel (l.drop 64)

/-- Split a byte list into big-endian 32-bit words (4 bytes each). -/
def toWordsBE : Nat → List Nat → List Nat
  | 0, _ => []
  | _, [] => []
  | fuel + 1, l => bytesToWordBE (l.take 4) :: toWordsBE fuel (l.drop 4)

/-- 8-byte big-endian encoding of a 64-bit value (the bit-length field of
the SHA padding). -/
def len64BE (n : Nat) : List Nat :=
  [n / 72057594037927936 % 256, n / 281474976710656 % 256,
   n / 1099511627776 % 256, n / 4294967296 % 256,
   n / 16777216 % 256, n / 65536 % 256, n / 256 % 256, n % 256]

/-- Merkle–Damgård padding shared by SHA-1 and SHA-256: append 128, then
zeros to 56 mod 64, then the message bit length as 8 big-endian bytes. -/
def shaPad (msg : List Nat) : List Nat :=
  let zeros := (64 - (msg.length + 9) % 64) % 64
  msg ++ [128] ++ List.replicate zeros 0 ++ len64BE (msg.length * 8)

/-- Working state of a SHA-256 compression round. -/
structure Hash8 where
  a : Nat
  b : Nat
  c : Nat
  d : Nat
  e : Nat
  f : Nat
  g : Nat
  h : Nat
deriving DecidableEq, Repr

/-- The 64 SHA-256 round constants. -/
def sha256K : List Nat :=
  [1116352408, 1899447441, 3049323471, 3921009573, 961987163, 1508970993,
   2453635748, 2870763221, 3624381080, 310598401, 607225278, 1426881987,
   1925078388, 2162078206, 2614888103, 3248222580, 3835390401, 4022224774,
   264347078, 604807628, 770255983, 1249150122, 1555081692, 1996064986,
   2554220882, 2821834349, 2952996808, 3210313671, 3336571891, 3584528711,
   113926993, 338241895, 666307205, 773529912, 1294757372, 1396182291,
   1695183700, 1986661051, 2177026350, 2456956037, 2730485921, 2820302411,
   3259730800, 3345764771, 3516065817, 3600352804, 4094571909, 275423344,
   430227734, 506948616, 659060556, 883997877, 958139571, 1322822218,
   1537002063, 1747873779, 1955562222, 2024104815, 2227730452, 2361852424,
   2428436474, 2756734187, 3204031479, 3329325298]

/-- Extend a 16-word SHA-256 message schedule to 64 words. -/
def sha256Extend : Nat → List Nat → List Nat
  | 0, w => w
  | k + 1, w =>
    let i := w.length
    let x15 := w.getD (i - 15) 0
    let x2 := w.getD (i - 2) 0
    let s0 := (rotr32 7 x15) ^^^ (rotr32 18 x15) ^^^ (x15 >>> 3)
    let s1 := (rotr32 17 x2) ^^^ (rotr32 19 x2) ^^^ (x2 >>> 10)
    sha256Extend k (w ++ [(w.getD (i - 16) 0 + s0 + w.getD (i - 7) 0 + s1) % 4294967296])

/-- One SHA-256 compression round. -/
def sha256Round (st : Hash8) (ki wi : Nat) : Hash8 :=
  let s1 := (rotr32 6 st.e) ^^^ (rotr32 11 st.e) ^^^ (rotr32 25 st.e)
  let ch := (st.e &&& st.f) ^^^ ((4294967295 ^^^ st.e) &&& st.g)
  let t1 := (st.h + s1 + ch + ki + wi) % 4294967296
  let s0 := (rotr32 2 st.a) ^^^ (rotr32 13 st.a) ^^^ (rotr32 22 st.a)
  let maj := (st.a &&& st.b) ^^^ (st.a &&& st.c) ^^^ (st.b &&& st.c)
  let t2 := (s0 + maj) % 4294967296
  ⟨(t1 + t2) % 4294967296, st.a, st.b, st.c, (st.d + t1) % 4294967296, st.e, st.f, st.g⟩

/-- SHA-256 compression of a single 64-byte block into the running state. -/
def sha256Block (hs : List Nat) (block : List Nat) : List Nat :=
  let w := sha256Extend 48 (toWordsBE 16 block)
  let init : Hash8 :=
    ⟨hs.getD 0 0, hs.getD 1 0, hs.getD 2 0, hs.getD 3 0,
     hs.getD 4 0, hs.getD 5 0, hs.getD 6 0, hs.getD 7 0⟩
  let fin := (List.range 64).foldl
    (fun st i => sha256Round st (sha256K.getD i 0) (w.getD i 0)) init
  [(hs.getD 0 0 + fin.a) % 4294967296, (hs.getD 1 0 + fin.b) % 4294967296,
   (hs.getD 2 0 + fin.c) % 4294967296, (hs.getD 3 0 + fin.d) % 4294967296,
   (hs.getD 4 0 + fin.e) % 4294967296, (hs.getD 5 0 + fin.f) % 4294967296,
   (hs.getD 6 0 + fin.g) % 4294967296, (hs.getD 7 0 + fin.h) % 4294967296]

/-- Serialise a list of 32-bit words as big-endian bytes. -/
def wordsToBytesBE (ws : List Nat) : List Nat :=
  (ws.map writeUInt32BE).flatten

/-- SHA-256 of a byte message, the digest as 32 bytes
(`crypto.createHash('sha256')`). -/
def sha256 (msg : List Nat) : List Nat :=
  let p := shaPad msg
  wordsToBytesBE (toBlocks p.length p |>.foldl sha256Block
    [1779033703, 3144134277, 1013904242, 2773480762,
     1359893119, 2600822924, 528734635, 1541459225])

/-- Working state of a SHA-1 compression round. -/
structure Hash5 where
  a : Nat
  b : Nat
  c : Nat
  d : Nat
  e : Nat
deriving DecidableEq, Repr

/-- Extend a 16-word SHA-1 message schedule to 80 words. -/
def sha1Extend : Nat → List Nat → List Nat
  | 0, w => w
  | k + 1, w =>
    let i := w.length
    sha1Extend k (w ++ [rotl32 1
      ((w.getD (i - 3) 0) ^^^ (w.getD (i - 8) 0) ^^^
       (w.getD (i - 14) 0) ^^^ (w.getD (i - 16) 0))])

/-- The SHA-1 round function and constant for round `i`. -/
def sha1FK (i : Nat) (b c d : Nat) : Nat × Nat :=
  if i < 20 then ((b &&& c) ||| ((4294967295 ^^^ b) &&& d), 1518500249)
  else if i < 40 then (b ^^^ c ^^^ d, 1859775393)
  else if i < 60 then ((b &&& c) ||| (b &&& d) ||| (c &&& d), 2400959708)
  else (b ^^^ c ^^^ d, 3395469782)

/-- One SHA-1 compression round. -/
def sha1Round (st : Hash5) (i wi : Nat) : Hash5 :=
  let fk := sha1FK i st.b st.c st.d
  let t := (rotl32 5 st.a + fk.1 + st.e + fk.2 + wi) % 4294967296
  ⟨t, st.a, rotl32 30 st.b, st.c, st.d⟩

/-- SHA-1 compression of a single 64-byte block into the running state. -/
def sha1Block (hs : List Nat) (block : List Nat) : List Nat :=
  let w := sha1Extend 64 (toWordsBE 16 block)
  let init : Hash5 :=
    ⟨hs.getD 0 0, hs.getD 1 0, hs.getD 2 0, hs.getD 3 0, hs.getD 4 0⟩
  let fin := (List.range 80).foldl
    (fun st i => sha1Round st i (w.getD i 0)) init
  [(hs.getD 0 0 + fin.a) % 4294967296, (hs.getD 1 0 + fin.b) % 4294967296,
   (hs.getD 2 0 + fin.c) % 4294967296, (hs.getD 3 0 + fin.d) % 4294967296,
   (hs.getD 4 0 + fin.e) % 4294967296]

/-- SHA-1 of a byte message, the digest as 20 bytes
(`crypto.createHash('sha1')`). -/
def sha1 (msg : List Nat) : List Nat :=
  let p := shaPad msg
  wordsToBytesBE (toBlocks p.length p |>.foldl sha1Block
    [1732584193, 4023233417, 2562383102, 271733878, 3285377520])

/-- The standard base64 alphabet. -/
def b64Alphabet : List Char :=
  "ABCDEFGHIJKLMNOPQRSTUVWXYZabcdefghijklmnopqrstuvwxyz0123456789+/".data

/-- Character of a 6-bit value in the base64 alphabet. -/
def b64Char (n : Nat) : Char :=
  b64Alphabet.getD n 'A'

/-- Base64 encoding with `=` padding, as produced by
Node's `buffer.toString('base64')` (fuel-driven recursion). -/
def base64EncodeGo : Nat → List Nat → List Char
  | 0, _ => []
  | _, [] => []
  | _ + 1, [b1] =>
    [b64Char (b1 >>> 2), b64Char ((b1 &&& 3) <<< 4), '=', '=']
  | _ + 1, [b1, b2] =>
    [b64Char (b1 >>> 2), b64Char (((b1 &&& 3) <<< 4) ||| (b2 >>> 4)),
     b64Char ((b2 &&& 15) <<< 2), '=']
  | fuel + 1, b1 :: b2 :: b3 :: rest =>
    [b64Char (b1 >>> 2), b64Char (((b1 &&& 3) <<< 4) ||| (b2 >>> 4)),
     b64Char (((b2 &&& 15) <<< 2) ||| (b3 >>> 6)), b64Char (b3 &&& 63)] ++
    base64EncodeGo fuel rest

/-- Base64 encoding of a byte list. -/
def base64Encode (b : List Nat) : List Char :=
  base64EncodeGo b.length b

/-- 6-bit value of a base64 alphabet character, `none` for any other
character. -/
def b64Value (c : Char) : Option Nat :=
  b64Alphabet.indexOf? c

/-- Decode filtered 6-bit values in groups of four; a trailing group of
two or three values yields one or two bytes, a single trailing value is
dropped.  This matches Node's forgiving base64 decoder. -/
def b64DecodeGroups : Nat → List Nat → List Nat
  | 0, _ => []
  | _, [] => []
  | _ + 1, [_] => []
  | _ + 1, [v1, v2] => [((v1 <<< 2) ||| (v2 >>> 4)) % 256]
  | _ + 1, [v1, v2, v3] =>
    [((v1 <<< 2) ||| (v2 >>> 4)) % 256, (((v2 &&& 15) <<< 4) ||| (v3 >>> 2)) % 256]
  | fuel + 1, v1 :: v2 :: v3 :: v4 :: rest =>
    [((v1 <<< 2) ||| (v2 >>> 4)) % 256, (((v2 &&& 15) <<< 4) ||| (v3 >>> 2)) % 256,
     (((v3 &&& 3) <<< 6) ||| v4) % 256] ++ b64DecodeGroups fuel rest

/-- Node's `Buffer.from(s, 'base64')`: characters outside the base64
alphabet (and padding) are skipped, the remaining 6-bit values are decoded
greedily, and the call never throws — malformed input silently yields a
(possibly empty) buffer. -/
def nodeBase64Decode (cs : List Char) : List Nat :=
  let vs := cs.filterMap b64Value
  b64DecodeGroups vs.length vs

/-- Value of a hexadecimal digit, `none` otherwise. -/
def hexVal (c : Char) : Option Nat :=
  if '0' ≤ c ∧ c ≤ '9' then some (c.toNat - 48)
  else if 'a' ≤ c ∧ c ≤ 'f' then some (c.toNat - 87)
  else if 'A' ≤ c ∧ c ≤ 'F' then some (c.toNat - 70)
  else none

/-- Decode pairs of hex digits, stopping at the first invalid pair, as
Node's `Buffer.from(s, 'hex')` does. -/
def hexDecodeGo : Nat → List Char → List Nat
  | 0, _ => []
  | fuel + 1, c1 :: c2 :: rest =>
    match hexVal c1, hexVal c2 with
    | some a, some b => (16 * a + b) :: hexDecodeGo fuel rest
    | _, _ => []
  | _, _ => []

/-- Node's `Buffer.from(s, 'hex')`. -/
def hexDecode (cs : List Char) : List Nat :=
  hexDecodeGo cs.length cs

/-- The machine-readable code carried by a thrown `PPKError`
(ppk-parser.js:192-199). -/
structure PPKErr where
  code : String
deriving DecidableEq, Repr

/-- `BinaryReader` (ppk-parser.js:1084-1089): an immutable byte slice and
a cursor. -/
structure BinaryReader where
  buffer : List Nat
  offset : Nat
deriving DecidableEq, Repr

/-- `this.maxFieldSize = 1024 * 1024` (ppk-parser.js:1088): the 1 MiB
per-field cap. -/
def maxFieldSize : Nat := 1048576

/-- `BinaryReader.checkBounds` (ppk-parser.js:1091-1103): fail with
BUFFER_UNDERRUN when the requested read passes the end of the slice. -/
def checkBounds (r : BinaryReader) (length : Nat) : Except PPKErr Unit :=
  if r.offset + length > r.buffer.length then .error ⟨"BUFFER_UNDERRUN"⟩
  else .ok ()

/-- `BinaryReader.readUInt32` (ppk-parser.js:1105-1110). -/
def readUInt32 (r : BinaryReader) : Except PPKErr (Nat × BinaryReader) := do
  let _ ← checkBounds r 4
  .ok (bytesToWordBE ((r.buffer.drop r.offset).take 4), ⟨r.buffer, r.offset + 4⟩)

/-- `BinaryReader.readString` (ppk-parser.js:1112-1127): a u32 length,
the FIELD_TOO_LARGE cap check, then that many bytes.  The source decodes
the bytes to a JavaScript string with `buffer.toString('utf8', ...)`; the
model returns the raw bytes, which carry the same information for every
property considered here. -/
def readString (r : BinaryReader) : Except PPKErr (List Nat × BinaryReader) := do
  let (length, r1) ← readUInt32 r
  if length > maxFieldSize then .error ⟨"FIELD_TOO_LARGE"⟩
  else do
    let _ ← checkBounds r1 length
    .ok ((r1.buffer.drop r1.offset).take length, ⟨r1.buffer, r1.offset + length⟩)

/-- `BinaryReader.readBuffer` (ppk-parser.js:1129-1144): a u32 length,
the FIELD_TOO_LARGE cap check, then that many raw bytes. -/
def readBuffer (r : BinaryReader) : Except PPKErr (List Nat × BinaryReader) := do
  let (length, r1) ← readUInt32 r
  if length > maxFieldSize then .error ⟨"FIELD_TOO_LARGE"⟩
  else do
    let _ ← checkBounds r1 length
    .ok ((r1.buffer.drop r1.offset).take length, ⟨r1.buffer, r1.offset + length⟩)

/-- `BinaryReader.readBytes` (ppk-parser.js:1146-1151): a raw read of an
explicit byte count, bounds-checked. -/
def readBytes (r : BinaryReader) (length : Nat) : Except PPKErr (List Nat × BinaryReader) := do
  let _ ← checkBounds r length
  .ok ((r.buffer.drop r.offset).take length, ⟨r.buffer, r.offset + length⟩)

/-- Decimal value of a digit string. -/
def digitsToNat (ds : List Char) : Nat :=
  ds.foldl (fun a c => 10 * a + (c.toNat - 48)) 0

/-- Hexadecimal value of a hex-digit string. -/
def hexCharsToNat (ds : List Char) : Nat :=
  ds.foldl (fun a c => 16 * a + (hexVal c).getD 0) 0

/-- JavaScript `parseInt(s)` with no radix argument: skip leading
whitespace, an optional sign, a `0x`/`0X` prefix selecting radix 16, then
the maximal run of digits; `none` models `NaN` (no digits found). -/
def parseIntJs (s : List Char) : Option Int :=
  let cs := s.dropWhile (fun c => c.isWhitespace)
  let signAndRest : Int × List Char :=
    match cs with
    | '-' :: r => (-1, r)
    | '+' :: r => (1, r)
    | r => (1, r)
  match signAndRest.2 with
  | '0' :: 'x' :: r =>
    let ds := r.takeWhile (fun c => (hexVal c).isSome)
    if ds.isEmpty then none else some (signAndRest.1 * hexCharsToNat ds)
  | '0' :: 'X' :: r =>
    let ds := r.takeWhile (fun c => (hexVal c).isSome)
    if ds.isEmpty then none else some (signAndRest.1 * hexCharsToNat ds)
  | r =>
    let ds := r.takeWhile (fun c => c.isDigit)
    if ds.isEmpty then none else some (signAndRest.1 * digitsToNat ds)

/-- The PuTTY header tag searched for by the version regular expression. -/
def versionHeaderChars : List Char := "PuTTY-User-Key-File-".data

/-- The JavaScript regular expression search
`headerPart.match(/PuTTY-User-Key-File-(\d+)/)` (ppk-parser.js:396):
scan for the first position where the tag is followed by at least one
decimal digit and return the value of the maximal digit run, `none` when
no position matches. -/
def findVersionMatch : List Char → Option Nat
  | [] => none
  | c :: rest =>
    if versionHeaderChars.isPrefixOf (c :: rest) then
      let ds := ((c :: rest).drop versionHeaderChars.length).takeWhile (fun ch => ch.isDigit)
      if ds.isEmpty then findVersionMatch rest else some (digitsToNat ds)
    else findVersionMatch rest

/-- The record built by `PPKParser.parsePPKStructure` (ppk-parser.js:373-383).
`argonFlavor` is the empty string when `Key-Derivation:` was never seen,
matching the falsiness of the absent JavaScript field; the numeric Argon2
fields are `none` when absent or `NaN`. -/
structure PpkData where
  version : Nat := 2
  algorithm : List Char := []
  encryption : List Char := "none".data
  comment : List Char := []
  publicLines : List (List Char) := []
  privateLines : List (List Char) := []
  privateMac : List Char := []
  argonFlavor : List Char := []
  argonMemory : Option Int := none
  argonPasses : Option Int := none
  argonParallelism : Option Int := none
  argonSalt : List Char := []
deriving DecidableEq, Repr

/-- Which body section is currently being collected. -/
inductive BodySection where
  | pub
  | priv
deriving DecidableEq, Repr

/-- The loop state of `PPKParser.parsePPKStructure`: the record under
construction, `currentSection` and `lineCount` (a JavaScript number;
`none` models `NaN`). -/
structure ParseState where
  data : PpkData
  currentSection : Option BodySection
  lineCount : Option Int
deriving DecidableEq, Repr

/-- JavaScript `lineCount > 0` (`NaN > 0` is false). -/
def lineCountPos : Option Int → Bool
  | some n => n > 0
  | none => false

/-- One iteration of the line loop of `PPKParser.parsePPKStructure`
(ppk-parser.js:388-445), transcribed branch by branch.  JavaScript
strings are char lists here; `jsTrim`, `splitOnChar` and `joinChars`
model `trim`, `split(':')` and `join(':')`. -/
def processLine (st : ParseState) (line : List Char) : ParseState :=
  let trimmed := jsTrim line
  if "PuTTY-User-Key-File-".data.isPrefixOf trimmed then
    let parts := splitOnChar ':' trimmed
    let headerPart := parts.headD []
    let version := (findVersionMatch headerPart).getD 2
    let algorithm := if parts.length > 1 then jsTrim (parts.getD 1 []) else st.data.algorithm
    { st with data := { st.data with version := version, algorithm := algorithm } }
  else if "Encryption:".data.isPrefixOf trimmed then
    let parts := splitOnChar ':' trimmed
    { st with data := { st.data with
        encryption := if parts.length > 1 then jsTrim (parts.getD 1 []) else "none".data } }
  else if "Comment:".data.isPrefixOf trimmed then
    { st with data := { st.data with
        comment := jsTrim (joinChars ':' ((splitOnChar ':' trimmed).drop 1)) } }
  else if "Public-Lines:".data.isPrefixOf trimmed then
    let parts := splitOnChar ':' trimmed
    { st with
        lineCount := if parts.length > 1 then parseIntJs (jsTrim (parts.getD 1 [])) else some 0,
        currentSection := some .pub }
  else if "Private-Lines:".data.isPrefixOf trimmed then
    let parts := splitOnChar ':' trimmed
    { st with
        lineCount := if parts.length > 1 then parseIntJs (jsTrim (parts.getD 1 [])) else some 0,
        currentSection := some .priv }
  else if "Private-MAC:".data.isPrefixOf trimmed then
    let parts := splitOnChar ':' trimmed
    { st with data := { st.data with
        privateMac := if parts.length > 1 then jsTrim (parts.getD 1 []) else [] } }
  else if "Key-Derivation:".data.isPrefixOf trimmed then
    let parts := splitOnChar ':' trimmed
    { st with data := { st.data with
        argonFlavor := if parts.length > 1 then jsTrim (parts.getD 1 []) else [] } }
  else if "Argon2-Memory:".data.isPrefixOf trimmed then
    let parts := splitOnChar ':' trimmed
    { st with data := { st.data with
        argonMemory := if parts.length > 1 then parseIntJs (jsTrim (parts.getD 1 [])) else some 0 } }
  else if "Argon2-Passes:".data.isPrefixOf trimmed then
    let parts := splitOnChar ':' trimmed
    { st with data := { st.data with
        argonPasses := if parts.length > 1 then parseIntJs (jsTrim (parts.getD 1 [])) else some 0 } }
  else if "Argon2-Parallelism:".data.isPrefixOf trimmed then
    let parts := splitOnChar ':' trimmed
    { st with data := { st.data with
        argonParallelism := if parts.length > 1 then parseIntJs (jsTrim (parts.getD 1 [])) else some 0 } }
  else if "Argon2-Salt:".data.isPrefixOf trimmed then
    let parts := splitOnChar ':' trimmed
    { st with data := { st.data with
        argonSalt := if parts.length > 1 then jsTrim (parts.getD 1 []) else [] } }
  else if st.currentSection.isSome ∧ lineCountPos st.lineCount then
    let data2 :=
      match st.currentSection with
      | some .pub => { st.data with publicLines := st.data.publicLines ++ [trimmed] }
      | some .priv => { st.data with privateLines := st.data.privateLines ++ [trimmed] }
      | none => st.data
    let newCount := st.lineCount.map (fun n => n - 1)
    { data := data2,
      currentSection := if newCount = some 0 then none else st.currentSection,
      lineCount := newCount }
  else st

/-- The initial loop state of `PPKParser.parsePPKStructure`. -/
def initialParseState : ParseState := ⟨{}, none, some 0⟩

/-- `PPKParser.parsePPKStructure` (ppk-parser.js:373-448). -/
def parsePPKStructure (lines : List (List Char)) : PpkData :=
  (lines.foldl processLine initialParseState).data

/-- The version gate of `PPKParser.parse` (ppk-parser.js:262-271):
UNSUPPORTED_VERSION for any version outside 2 and 3. -/
def checkVersion (v : Nat) : Except PPKErr Unit :=
  if v ≠ 2 ∧ v ≠ 3 then .error ⟨"UNSUPPORTED_VERSION"⟩ else .ok ()

/-- The body-decoding step of `PPKParser.parse` (ppk-parser.js:278-311):
empty sections raise MISSING_FIELD; then, inside the try block, only an
empty joined string reaches the INVALID_BASE64 wrapper, because
`Buffer.from(s, 'base64')` never throws — malformed characters are
silently skipped by Node's forgiving decoder. -/
def decodeBodies (publicLines privateLines : List (List Char)) :
    Except PPKErr (List Nat × List Nat) :=
  if publicLines.length = 0 then .error ⟨"MISSING_FIELD"⟩
  else if privateLines.length = 0 then .error ⟨"MISSING_FIELD"⟩
  else
    let publicBase64 := publicLines.flatten
    let privateBase64 := privateLines.flatten
    if publicBase64 = [] ∨ privateBase64 = [] then .error ⟨"INVALID_BASE64"⟩
    else .ok (nodeBase64Decode publicBase64, nodeBase64Decode privateBase64)

/-- `PPKParser.deriveKeyV2` (ppk-parser.js:525-542): two SHA-1 digests
over a 4-byte sequence number followed by the UTF-8 passphrase, the first
32 bytes of their concatenation. -/
def deriveKeyV2 (passphrase : String) : List Nat :=
  let digest1 := sha1 ([0, 0, 0, 0] ++ utf8Encode passphrase)
  let digest2 := sha1 ([0, 0, 0, 1] ++ utf8Encode passphrase)
  (digest1 ++ digest2).take 32

/-- Modelled from the spec (§4.4, PPK v2): the AES-256 key is the first
32 bytes of `SHA1(0 ‖ P) ‖ SHA1(1 ‖ P)`. -/
def specDeriveKeyV2 (passphrase : String) : List Nat :=
  (sha1 (writeUInt32BE 0 ++ utf8Encode passphrase) ++
   sha1 (writeUInt32BE 1 ++ utf8Encode passphrase)).take 32

/-- `PPKParser.deriveMACKeyV2` (ppk-parser.js:582-587). -/
def deriveMACKeyV2 (passphrase : String) : List Nat :=
  sha1 (utf8Encode "putty-private-key-file-mac-key" ++ utf8Encode passphrase)

/-- `PPKParser.deriveMACKeyV3` (ppk-parser.js:592-598): SHA-256 over the
literal key string followed by the UTF-8 passphrase. -/
def deriveMACKeyV3 (passphrase : String) : List Nat :=
  sha256 (utf8Encode "putty-private-key-file-mac-key" ++ utf8Encode passphrase)

/-- The HMAC input assembled by `PPKParser.verifyMAC` in the version-2
branch (ppk-parser.js:561-574): five length-prefixed fields.  The chain
of `hmac.update` calls is equivalent to hashing the concatenation. -/
def macInputV2 (algorithm encryption comment : List Char)
    (publicKeyData privateKeyData : List Nat) : List Nat :=
  encodeString (utf8EncodeChars algorithm) ++ encodeString (utf8EncodeChars encryption) ++
  encodeString (utf8EncodeChars comment) ++ encodeString publicKeyData ++
  encodeString privateKeyData

/-- The HMAC input assembled by `PPKParser.verifyMAC` in the version-3
branch (ppk-parser.js:551-560): only the two length-prefixed key blobs. -/
def macInputV3 (publicKeyData privateKeyData : List Nat) : List Nat :=
  encodeString publicKeyData ++ encodeString privateKeyData

/-- Modelled from the spec (§4.5): both versions frame the MAC input as
the five fields `algorithm ‖ encryption ‖ comment ‖ public_blob ‖
private_blob_plaintext`, each as a u32 big-endian length followed by the
raw bytes. -/
def specFramedMacInput (algorithm encryption comment : List Char)
    (publicBlob privateBlobPlain : List Nat) : List Nat :=
  encodeString (utf8EncodeChars algorithm) ++ encodeString (utf8EncodeChars encryption) ++
  encodeString (utf8EncodeChars comment) ++ encodeString publicBlob ++
  encodeString privateBlobPlain

/-- The MAC key selected by the version-3 branch of `PPKParser.verifyMAC`
(ppk-parser.js:553): the Argon2-derived key when one was stored during
decryption, otherwise `deriveMACKeyV3 passphrase`. -/
def macKeyV3 (derivedMacKey : Option (List Nat)) (passphrase : String) : List Nat :=
  derivedMacKey.getD (deriveMACKeyV3 passphrase)

/-- The primitive call issued by `PPKParser.decryptPrivateKey`: either the
`pureArgon2.hash` invocation of the v3 branch (with the parameters passed
to it) or the `crypto.createDecipheriv('aes-256-cbc', key, iv)` invocation
of the v2 branch. -/
inductive DecryptPlan where
  | argon2Call (type : Nat) (passes memory parallelism : Option Int)
      (salt : List Nat) (hashLen : Nat)
  | aesCbcCall (key iv : List Nat)
deriving DecidableEq, Repr

/-- The flavor table of `PPKParser.decryptPrivateKey`
(ppk-parser.js:471-476) combined with the `ArgonType` constants
(ppk-parser.js:182-186): Argon2i to 1, Argon2d to 0, Argon2id to 2. -/
def argon2TypeOf (flavor : List Char) : Option Nat :=
  if flavor = "Argon2i".data then some 1
  else if flavor = "Argon2d".data then some 0
  else if flavor = "Argon2id".data then some 2
  else none

/-- `PPKParser.decryptPrivateKey` (ppk-parser.js:453-519) up to its first
cryptographic primitive call, transcribed control-flow branch by branch.
The v3 branch performs no sanity check on passes, memory or parallelism:
after the flavor lookup it invokes `pureArgon2.hash` directly with the
record's raw parameter values. -/
def decryptPrivateKeyPlan (ppk : PpkData) (passphrase : String) :
    Except PPKErr DecryptPlan :=
  if ppk.encryption ≠ "aes256-cbc".data then .error ⟨"UNSUPPORTED_ENCRYPTION"⟩
  else if ppk.version = 3 ∧ ppk.argonFlavor ≠ [] then
    match argon2TypeOf ppk.argonFlavor with
    | none => .error ⟨"UNSUPPORTED_ARGON2"⟩
    | some t => .ok (.argon2Call t ppk.argonPasses ppk.argonMemory
        ppk.argonParallelism (hexDecode ppk.argonSalt) 80)
  else .ok (.aesCbcCall (deriveKeyV2 passphrase) (List.replicate 16 0))

/-- The padding appended by `PPKParser.convertEd25519ToOpenSSH`
(ppk-parser.js:797-804): bytes 1, 2, 3, … of length `8 - n % 8`. -/
def ed25519Pad (n : Nat) : List Nat :=
  (List.range (8 - n % 8)).map (fun i => i + 1)

/-- The binary `openssh-key-v1` container built by
`PPKParser.convertEd25519ToOpenSSH` (ppk-parser.js:772-816), with the
4-byte `crypto.randomBytes(4)` check value passed in as `checkInt`. -/
def convertEd25519Structure (publicKeyData privateKeyData : List Nat)
    (comment : List Char) (checkInt : List Nat) : Except PPKErr (List Nat) := do
  let (_keyType, r1) ← readString ⟨publicKeyData, 0⟩
  let (publicKey, _) ← readBuffer r1
  let (privateKey, r2) ← readBuffer ⟨privateKeyData, 0⟩
  let (_publicKeyCheck, _) ← readBuffer r2
  let keyData := checkInt ++ checkInt ++ encodeString (utf8Encode "ssh-ed25519") ++
    encodeString publicKey ++ encodeString (privateKey ++ publicKey) ++
    encodeString (utf8EncodeChars comment)
  let paddedKeyData := keyData ++ ed25519Pad keyData.length
  .ok (utf8Encode "openssh-key-v1" ++ [0] ++ encodeString (utf8Encode "none") ++
    encodeString [] ++ encodeString [] ++ [0, 0, 0, 1] ++
    encodeString publicKeyData ++ encodeString paddedKeyData)

/-- Read the kdf-name SSH-string of an `openssh-key-v1` container: skip
the 15 magic bytes, read the cipher-name string, then the kdf-name
string. -/
def kdfNameField (container : List Nat) : Except PPKErr (List Nat) := do
  let (_cipherName, r1) ← readBuffer ⟨container, 15⟩
  let (kdfName, _) ← readBuffer r1
  .ok kdfName

/-- JavaScript `s.replace(/=+$/, '')`: remove the maximal trailing run of
`=` characters. -/
def stripTrailingEq (cs : List Char) : List Char :=
  (cs.reverse.dropWhile (fun c => c = '=')).reverse

/-- `PPKParser.generateFingerprint` (ppk-parser.js:1064-1069). -/
def generateFingerprint (publicKeyData : List Nat) : List Char :=
  "SHA256:".data ++ stripTrailingEq (base64Encode (sha256 publicKeyData))

/-- A value thrown inside `PPKParser.parse`: either a `PPKError` (carrying
its code) or any other JavaScript error (carrying its constructor name). -/
inductive JsThrown where
  | ppkError (code message : String)
  | jsError (name message : String)
deriving DecidableEq, Repr

/-- Whether a thrown value is a `PPKError` (`error instanceof PPKError`). -/
def JsThrown.isPpkError : JsThrown → Bool
  | .ppkError _ _ => true
  | .jsError _ _ => false

/-- The catch block of `PPKParser.parse` (ppk-parser.js:345-367).  A
`PPKError` is re-thrown unchanged.  For any other error the handler
builds a PARSE_ERROR whose details evaluate `ppkData ? {...} : 'undefined'`
— but `ppkData` is a `const` declared inside the try block
(ppk-parser.js:259) and is not in scope in the catch block, so evaluating
that expression itself throws `ReferenceError: ppkData is not defined`
before the PARSE_ERROR `PPKError` can be constructed. -/
def parseCatchBlock : JsThrown → JsThrown
  | .ppkError c m => .ppkError c m
  | .jsError _ _ => .jsError "ReferenceError" "ppkData is not defined"

/-- Modelled from the spec (§4.8): the private-section plaintext is
`check ‖ check ‖ algorithm_name ‖ pub_components ‖ priv_components ‖
comment ‖ pad`, for Ed25519 with pub component `A` and priv component
`seed ‖ A`, each an SSH string, padded with bytes 1, 2, 3, … up to the
8-byte block size. -/
def specEd25519PrivateSection (checkInt publicKey privateKey : List Nat)
    (comment : List Char) : List Nat :=
  let body := checkInt ++ checkInt ++ encodeString (utf8Encode "ssh-ed25519") ++
    encodeString publicKey ++ encodeString (privateKey ++ publicKey) ++
    encodeString (utf8EncodeChars comment)
  body ++ ed25519Pad body.length

/-- Whether a read result leaves the cursor inside the slice (trivially
true for a failed read, which consumes nothing). -/
def stayedInBounds {α : Type} (res : Except PPKErr (α × BinaryReader)) : Prop :=
  match res with
  | .ok (_, r) => r.offset ≤ r.buffer.length
  | .error _ => True

/-- A version-3 encrypted record whose Argon2 parameters violate every
sanity bound of spec §4.4: passes = 0, memory = 0, parallelism = 0. -/
def sanityViolatingPpk : PpkData :=
  { version := 3, encryption := "aes256-cbc".data, argonFlavor := "Argon2id".data,
    argonPasses := some 0, argonMemory := some 0, argonParallelism := some 0,
    argonSalt := "00ff".data }

/-- A well-formed version-3 encrypted record (used to instantiate
universally quantified statements). -/
def argonRegularPpk : PpkData :=
  { version := 3, encryption := "aes256-cbc".data, argonFlavor := "Argon2i".data,
    argonPasses := some 8, argonMemory := some 8192, argonParallelism := some 1,
    argonSalt := "aabbccdd".data }

/-- A version-2 aes256-cbc record. -/
def v2EncryptedPpk : PpkData :=
  { version := 2, encryption := "aes256-cbc".data }

/-- A concrete Ed25519 public blob: the SSH strings `"ssh-ed25519"` and a
32-byte public key. -/
def edPub : List Nat :=
  encodeString (utf8Encode "ssh-ed25519") ++ encodeString (List.replicate 32 1)

/-- A concrete Ed25519 private blob: the SSH strings of a 32-byte seed and
the 32-byte public key. -/
def edPriv : List Nat :=
  encodeString (List.replicate 32 2) ++ encodeString (List.replicate 32 1)

/-- The source KDF agrees with the spec formula: the two sequence-number
prefixes `[0,0,0,0]` and `[0,0,0,1]` are the big-endian words 0 and 1. -/
theorem deriveKeyV2_eq_spec (passphrase : String) :
    deriveKeyV2 passphrase = specDeriveKeyV2 passphrase := rfl

/-- C1: the claim states that versions 2 and 3 feed the same framed
five-field input (algorithm, encryption, comment, public blob, private
blob, each length-prefixed) to the HMAC.  The version-2 branch of
`verifyMAC` does build that input, but the version-3 branch MACs only the
two length-prefixed key blobs, so at a concrete record the version-3 MAC
input differs from the framed five-field form. -/
theorem C1_v3_mac_input_omits_prefix_fields :
    macInputV2 "ssh-ed25519".data "none".data "comment".data [1] [2] =
      specFramedMacInput "ssh-ed25519".data "none".data "comment".data [1] [2] ∧
    macInputV3 [1] [2] ≠
      specFramedMacInput "ssh-ed25519".data "none".data "comment".data [1] [2] := by
  exact ⟨rfl, by decide⟩

/-- C2: the claim states that the version-3 MAC key for an unencrypted
file is 32 zero bytes and is independent of the passphrase argument.  The
code instead derives `SHA256("putty-private-key-file-mac-key" ‖
passphrase)`, which is not the zero key and changes with the passphrase
(`macKeyV3 none` is the key `verifyMAC` uses when no Argon2-derived key
was stored, i.e. exactly the unencrypted case). -/
theorem C2_v3_unencrypted_mac_key_not_zero :
    deriveMACKeyV3 "" ≠ List.replicate 32 0 ∧
    macKeyV3 none "x" ≠ macKeyV3 none "" := by
  constructor
  · decide
  · decide

/-- C3: the claim states that a body line that is not valid base64 makes
parsing fail with InvalidBase64 and is never silently decoded.  In the
code `Buffer.from(s, 'base64')` never throws, so a malformed non-empty
body (here a Public-Lines body consisting of the line `!!!!`) is silently
decoded to an empty buffer and the base64 step succeeds. -/
theorem C3_malformed_base64_silently_decoded :
    decodeBodies ["!!!!".data] ["QUJD".data] = .ok ([], [65, 66, 67]) ∧
    ∀ e : PPKErr, decodeBodies ["!!!!".data] ["QUJD".data] ≠ .error e := by
  refine ⟨rfl, fun e h => ?_⟩
  rw [show decodeBodies ["!!!!".data] ["QUJD".data] = .ok ([], [65, 66, 67]) from rfl] at h
  exact Except.noConfusion h

/-- C4 counterexample: a version-3 encrypted record whose parameters
violate every sanity bound of the claim (passes = 0 < 1, parallelism =
0 < 1, memory = 0 < 8·parallelism is not violated but passes and
parallelism are) is not rejected: `decryptPrivateKey` reaches the
`pureArgon2.hash` invocation with the raw parameter values. -/
theorem C4_counterexample_sanity_violating_record_reaches_argon2 :
    sanityViolatingPpk.argonPasses = some 0 ∧
    sanityViolatingPpk.argonParallelism = some 0 ∧
    decryptPrivateKeyPlan sanityViolatingPpk "pw" =
      .ok (.argon2Call 2 (some 0) (some 0) (some 0) [0, 255] 80) := by
  refine ⟨rfl, rfl, rfl⟩

/-- C4 amended: no parameter sanity checks are performed before the
Argon2 primitive.  For every version-3 aes256-cbc record with a
recognised flavor the primitive is invoked with the record's raw passes,
memory and parallelism values, whatever they are; only an unrecognised
flavor is rejected (UNSUPPORTED_ARGON2) before invocation. -/
theorem C4_amended_no_sanity_checks_before_argon2 (ppk : PpkData)
    (passphrase : String) (henc : ppk.encryption = "aes256-cbc".data)
    (hver : ppk.version = 3) (hflav : ppk.argonFlavor ≠ []) :
    (∀ t, argon2TypeOf ppk.argonFlavor = some t →
      decryptPrivateKeyPlan ppk passphrase =
        .ok (.argon2Call t ppk.argonPasses ppk.argonMemory ppk.argonParallelism
          (hexDecode ppk.argonSalt) 80)) ∧
    (argon2TypeOf ppk.argonFlavor = none →
      decryptPrivateKeyPlan ppk passphrase = .error ⟨"UNSUPPORTED_ARGON2"⟩) := by
  constructor
  · intro t ht
    simp [decryptPrivateKeyPlan, henc, hver, hflav, ht]
  · intro ht
    simp [decryptPrivateKeyPlan, henc, hver, hflav, ht]

/-- C4 witness: the amended statement applied to a concrete well-formed
version-3 record with the Argon2i flavor. -/
theorem C4_amended_witness :
    decryptPrivateKeyPlan argonRegularPpk "pw" =
      .ok (.argon2Call 1 (some 8) (some 8192) (some 1)
        (hexDecode "aabbccdd".data) 80) :=
  (C4_amended_no_sanity_checks_before_argon2 argonRegularPpk "pw" rfl rfl
    (by decide)).1 1 rfl

/-- C6: for every version-2 aes256-cbc record and passphrase P, the
decryption path calls AES-256-CBC with the key
`(SHA1(0 ‖ P) ‖ SHA1(1 ‖ P))[0..32]` and an IV of 16
zero bytes, and `deriveKeyV2` agrees with the spec formula. -/
theorem C6_v2_key_derivation (ppk : PpkData) (passphrase : String)
    (hver : ppk.version = 2) (henc : ppk.encryption = "aes256-cbc".data) :
    decryptPrivateKeyPlan ppk passphrase =
      .ok (.aesCbcCall (specDeriveKeyV2 passphrase) (List.replicate 16 0)) ∧
    deriveKeyV2 passphrase = specDeriveKeyV2 passphrase := by
  constructor
  · simp [decryptPrivateKeyPlan, henc, hver, deriveKeyV2_eq_spec]
  · exact deriveKeyV2_eq_spec passphrase

/-- C6 witness: the theorem applied to a concrete version-2 record. -/
theorem C6_v2_key_derivation_witness :
    decryptPrivateKeyPlan v2EncryptedPpk "t" =
      .ok (.aesCbcCall (specDeriveKeyV2 "t") (List.replicate 16 0)) ∧
    deriveKeyV2 "t" = specDeriveKeyV2 "t" :=
  C6_v2_key_derivation v2EncryptedPpk "t" rfl rfl

/-- C9: the claim states that every non-PPKError failure inside `parse`
is re-wrapped as a PPKError with code PARSE_ERROR.  Because the catch
block references the out-of-scope `ppkData`, wrapping any non-PPKError
instead throws a bare ReferenceError, which carries no `code` field;
only errors that are already PPKErrors propagate unchanged. -/
theorem C9_catch_block_raises_reference_error :
    parseCatchBlock (.jsError "Error" "wrong final block length") =
      .jsError "ReferenceError" "ppkData is not defined" ∧
    (parseCatchBlock (.jsError "Error" "wrong final block length")).isPpkError = false ∧
    (∀ c m, parseCatchBlock (.ppkError c m) = .ppkError c m) :=
  ⟨rfl, rfl, fun _ _ => rfl⟩

/-- C8: closed-form behaviour of the four `BinaryReader` operations on
every slice and cursor position.  A read that would pass the end of the
slice fails with BUFFER_UNDERRUN; a u32 length prefix above the 1 MiB
`maxFieldSize` cap fails with FIELD_TOO_LARGE before the content bytes
are touched (the cap test precedes the content bounds test and the
slice); every successful read returns a `take`/`drop` sub-slice of the
buffer and leaves the cursor inside the slice. -/
theorem C8_binary_reader_bounds (r : BinaryReader) (n : Nat) :
    (readUInt32 r =
      if r.offset + 4 > r.buffer.length then .error ⟨"BUFFER_UNDERRUN"⟩
      else .ok (bytesToWordBE ((r.buffer.drop r.offset).take 4),
        ⟨r.buffer, r.offset + 4⟩)) ∧
    (readBytes r n =
      if r.offset + n > r.buffer.length then .error ⟨"BUFFER_UNDERRUN"⟩
      else .ok ((r.buffer.drop r.offset).take n, ⟨r.buffer, r.offset + n⟩)) ∧
    (readBuffer r =
      if r.offset + 4 > r.buffer.length then .error ⟨"BUFFER_UNDERRUN"⟩
      else if bytesToWordBE ((r.buffer.drop r.offset).take 4) > maxFieldSize then
        .error ⟨"FIELD_TOO_LARGE"⟩
      else if r.offset + 4 + bytesToWordBE ((r.buffer.drop r.offset).take 4) >
          r.buffer.length then .error ⟨"BUFFER_UNDERRUN"⟩
      else .ok ((r.buffer.drop (r.offset + 4)).take
          (bytesToWordBE ((r.buffer.drop r.offset).take 4)),
        ⟨r.buffer, r.offset + 4 + bytesToWordBE ((r.buffer.drop r.offset).take 4)⟩)) ∧
    readString r = readBuffer r ∧
    stayedInBounds (readUInt32 r) ∧
    stayedInBounds (readBytes r n) ∧
    stayedInBounds (readBuffer r) ∧
    stayedInBounds (readString r) := by
  have hu : readUInt32 r =
      if r.offset + 4 > r.buffer.length then .error ⟨"BUFFER_UNDERRUN"⟩
      else .ok (bytesToWordBE ((r.buffer.drop r.offset).take 4),
        ⟨r.buffer, r.offset + 4⟩) := by
    by_cases h : r.offset + 4 > r.buffer.length <;>
      simp [readUInt32, checkBounds, h, bind, Except.bind]
  have hb : readBytes r n =
      if r.offset + n > r.buffer.length then .error ⟨"BUFFER_UNDERRUN"⟩
      else .ok ((r.buffer.drop r.offset).take n, ⟨r.buffer, r.offset + n⟩) := by
    by_cases h : r.offset + n > r.buffer.length <;>
      simp [readBytes, checkBounds, h, bind, Except.bind]
  have hbuf : readBuffer r =
      if r.offset + 4 > r.buffer.length then .error ⟨"BUFFER_UNDERRUN"⟩
      else if bytesToWordBE ((r.buffer.drop r.offset).take 4) > maxFieldSize then
        .error ⟨"FIELD_TOO_LARGE"⟩
      else if r.offset + 4 + bytesToWordBE ((r.buffer.drop r.offset).take 4) >
          r.buffer.length then .error ⟨"BUFFER_UNDERRUN"⟩
      else .ok ((r.buffer.drop (r.offset + 4)).take
          (bytesToWordBE ((r.buffer.drop r.offset).take 4)),
        ⟨r.buffer, r.offset + 4 + bytesToWordBE ((r.buffer.drop r.offset).take 4)⟩) := by
    by_cases h1 : r.offset + 4 > r.buffer.length
    · simp [readBuffer, readUInt32, checkBounds, h1, bind, Except.bind]
    · by_cases h2 : bytesToWordBE ((r.buffer.drop r.offset).take 4) > maxFieldSize
      · simp [readBuffer, readUInt32, checkBounds, h1, h2, bind, Except.bind]
      · by_cases h3 : r.offset + 4 + bytesToWordBE ((r.buffer.drop r.offset).take 4) >
            r.buffer.length
        · simp [readBuffer, readUInt32, checkBounds, h1, h2, h3, bind, Except.bind]
        · simp [readBuffer, readUInt32, checkBounds, h1, h2, h3, bind, Except.bind]
  refine ⟨hu, hb, hbuf, rfl, ?_, ?_, ?_, ?_⟩
  · rw [hu]
    by_cases h : r.offset + 4 > r.buffer.length
    · simp [h, stayedInBounds]
    · simp [h, stayedInBounds]; omega
  · rw [hb]
    by_cases h : r.offset + n > r.buffer.length
    · simp [h, stayedInBounds]
    · simp [h, stayedInBounds]; omega
  · rw [hbuf]
    by_cases h1 : r.offset + 4 > r.buffer.length
    · simp [h1, stayedInBounds]
    · by_cases h2 : bytesToWordBE ((r.buffer.drop r.offset).take 4) > maxFieldSize
      · simp [h1, h2, stayedInBounds]
      · by_cases h3 : r.offset + 4 + bytesToWordBE ((r.buffer.drop r.offset).take 4) >
            r.buffer.length
        · simp [h1, h2, h3, stayedInBounds]
        · simp [h1, h2, h3, stayedInBounds]; omega
  · rw [show readString r = readBuffer r from rfl, hbuf]
    by_cases h1 : r.offset + 4 > r.buffer.length
    · simp [h1, stayedInBounds]
    · by_cases h2 : bytesToWordBE ((r.buffer.drop r.offset).take 4) > maxFieldSize
      · simp [h1, h2, stayedInBounds]
      · by_cases h3 : r.offset + 4 + bytesToWordBE ((r.buffer.drop r.offset).take 4) >
            r.buffer.length
        · simp [h1, h2, h3, stayedInBounds]
        · simp [h1, h2, h3, stayedInBounds]; omega

/-- C10: a header line that starts with the PuTTY tag but carries no
decimal digits after it anywhere before the first colon is assigned the
default version 2 by `parsePPKStructure` (whatever the current loop
state), version 2 passes the parse-level version gate without
UNSUPPORTED_VERSION, and the concrete input
`PuTTY-User-Key-File-X: ssh-rsa` parses to a version-2 record with
algorithm `ssh-rsa`. -/
theorem C10_digitless_header_defaults_to_version_2 (line : List Char)
    (st : ParseState)
    (hstart : "PuTTY-User-Key-File-".data.isPrefixOf (jsTrim line) = true)
    (hnodigit : findVersionMatch ((splitOnChar ':' (jsTrim line)).headD []) = none) :
    (processLine st line).data.version = 2 ∧
    checkVersion 2 = .ok () ∧
    parsePPKStructure ["PuTTY-User-Key-File-X: ssh-rsa".data] =
      { version := 2, algorithm := "ssh-rsa".data } := by
  refine ⟨?_, rfl, by decide⟩
  simp only [List.headD_eq_head?] at hnodigit
  simp [processLine, hstart, hnodigit]

/-- `readString` and `readBuffer` perform the same reads; they differ in
the source only by the final utf8 decoding of the returned bytes. -/
theorem readString_eq_readBuffer (r : BinaryReader) : readString r = readBuffer r := rfl

/-- The length of a length-prefixed field. -/
theorem length_encodeString (b : List Nat) : (encodeString b).length = 4 + b.length := by
  simp [encodeString, writeUInt32BE]
  omega

/-- Reading back a big-endian u32 below 2^32 recovers the value. -/
theorem bytesToWordBE_writeUInt32BE (n : Nat) (h : n < 4294967296) :
    bytesToWordBE (writeUInt32BE n) = n := by
  simp [bytesToWordBE, writeUInt32BE, List.foldl]
  omega

/-- `readBuffer` on a buffer whose cursor sits at a length-prefixed field
below the cap returns exactly that field and advances past it. -/
theorem readBuffer_at (pre b rest : List Nat) (hcap : b.length ≤ maxFieldSize) :
    readBuffer ⟨pre ++ (encodeString b ++ rest), pre.length⟩ =
      .ok (b, ⟨pre ++ (encodeString b ++ rest), pre.length + 4 + b.length⟩) := by
  have hb32 : b.length < 4294967296 := by
    have : maxFieldSize < 4294967296 := by decide
    omega
  have hlen : (pre ++ (encodeString b ++ rest)).length =
      pre.length + (4 + b.length + rest.length) := by
    simp [length_encodeString]
  have hdrop1 : (pre ++ (encodeString b ++ rest)).drop pre.length =
      encodeString b ++ rest := List.drop_left pre _
  have htake4 : (encodeString b ++ rest).take 4 = writeUInt32BE b.length := by
    rw [encodeString, List.append_assoc]
    exact List.take_left' (by simp [writeUInt32BE])
  have hdrop2 : (pre ++ (encodeString b ++ rest)).drop (pre.length + 4) = b ++ rest := by
    rw [show pre ++ (encodeString b ++ rest) =
      (pre ++ writeUInt32BE b.length) ++ (b ++ rest) by
        simp [encodeString]]
    exact List.drop_left' (by simp [writeUInt32BE])
  have hcond1 : ¬(pre.length + 4 > (pre ++ (encodeString b ++ rest)).length) := by
    rw [hlen]; omega
  have hcond3 : ¬(pre.length + 4 + b.length > (pre ++ (encodeString b ++ rest)).length) := by
    rw [hlen]; omega
  simp only [readBuffer, readUInt32, checkBounds, bind, Except.bind, hcond1, if_neg,
    hdrop1, htake4, bytesToWordBE_writeUInt32BE _ hb32, ite_false, ite_true]
  rw [if_neg (not_lt.mpr hcap)]
  rw [if_neg hcond3]
  simp only [hdrop2, List.take_left]

/-- `readBuffer` at cursor 0 of a buffer starting with a length-prefixed
field. -/
theorem readBuffer_first (b rest : List Nat) (hcap : b.length ≤ maxFieldSize) :
    readBuffer ⟨encodeString b ++ rest, 0⟩ =
      .ok (b, ⟨encodeString b ++ rest, 4 + b.length⟩) := by
  have h := readBuffer_at [] b rest hcap
  simpa using h

/-- `readBuffer` positioned after a first length-prefixed field of a
two-field buffer. -/
theorem readBuffer_second (a b : List Nat) (hcap : b.length ≤ maxFieldSize) :
    readBuffer ⟨encodeString a ++ encodeString b, 4 + a.length⟩ =
      .ok (b, ⟨encodeString a ++ encodeString b, 4 + a.length + 4 + b.length⟩) := by
  have h := readBuffer_at (encodeString a) b [] hcap
  rw [List.append_nil, length_encodeString] at h
  exact h

/-- C5 counterexample: converting a concrete Ed25519 key, the kdf-name
SSH-string of the emitted `openssh-key-v1` container is the empty string,
which is neither `none` nor `bcrypt` as the claim requires. -/
theorem C5_counterexample_kdf_name_empty :
    (convertEd25519Structure edPub edPriv "c".data [9, 9, 9, 9]).bind kdfNameField =
      .ok [] ∧
    utf8Encode "none" ≠ [] ∧ utf8Encode "bcrypt" ≠ [] := by
  refine ⟨rfl, by decide, by decide⟩

/-- C5 amended: for every well-formed Ed25519 key material (a public blob
of two length-prefixed fields and a private blob of two length-prefixed
fields, each below the field cap), the emitted container is exactly
`openssh-key-v1\0`, the SSH-string cipher name `none`, an EMPTY SSH-string
kdf name, an empty SSH-string kdf options, u32 1, the verbatim public
blob as an SSH string, and the private section
`check ‖ check ‖ "ssh-ed25519" ‖ A ‖ seed‖A ‖ comment ‖ pad` with pad
bytes 1, 2, 3, … up to the 8-byte block size. -/
theorem C5_amended_container_layout
    (keyType publicKey privateKey publicKeyCheck checkInt : List Nat)
    (comment : List Char)
    (h1 : keyType.length ≤ maxFieldSize) (h2 : publicKey.length ≤ maxFieldSize)
    (h3 : privateKey.length ≤ maxFieldSize) (h4 : publicKeyCheck.length ≤ maxFieldSize) :
    convertEd25519Structure (encodeString keyType ++ encodeString publicKey)
      (encodeString privateKey ++ encodeString publicKeyCheck) comment checkInt =
      .ok (utf8Encode "openssh-key-v1" ++ [0] ++
        encodeString (utf8Encode "none") ++ encodeString [] ++ encodeString [] ++
        [0, 0, 0, 1] ++
        encodeString (encodeString keyType ++ encodeString publicKey) ++
        encodeString (specEd25519PrivateSection checkInt publicKey privateKey comment)) := by
  simp only [convertEd25519Structure, readString_eq_readBuffer, bind, Except.bind,
    readBuffer_first keyType (encodeString publicKey) h1,
    readBuffer_second keyType publicKey h2,
    readBuffer_first privateKey (encodeString publicKeyCheck) h3,
    readBuffer_second privateKey publicKeyCheck h4]
  rfl

/-- C5 witness for the amended statement: applied to the concrete Ed25519
blobs `edPub`/`edPriv`. -/
theorem C5_amended_witness :
    convertEd25519Structure edPub edPriv "c".data [9, 9, 9, 9] =
      .ok (utf8Encode "openssh-key-v1" ++ [0] ++
        encodeString (utf8Encode "none") ++ encodeString [] ++ encodeString [] ++
        [0, 0, 0, 1] ++ encodeString edPub ++
        encodeString (specEd25519PrivateSection [9, 9, 9, 9] (List.replicate 32 1)
          (List.replicate 32 2) "c".data)) :=
  C5_amended_container_layout (utf8Encode "ssh-ed25519") (List.replicate 32 1)
    (List.replicate 32 2) (List.replicate 32 1) [9, 9, 9, 9] "c".data
    (by decide) (by decide) (by decide) (by decide)

/-- The first element surviving `dropWhile p` falsifies `p`. -/
theorem dropWhile_head_false {α : Type} (p : α → Bool) :
    ∀ (l : List α) (a : α) (as : List α), l.dropWhile p = a :: as → p a = false := by
  intro l
  induction l with
  | nil => intro a as h; simp [List.dropWhile] at h
  | cons x xs ih =>
    intro a as h
    by_cases hx : p x
    · rw [List.dropWhile_cons_of_pos hx] at h
      exact ih a as h
    · rw [List.dropWhile_cons_of_neg hx] at h
      cases h
      simpa using hx

/-- C7: the fingerprint equals `SHA256:` followed by the base64 encoding
of the SHA-256 of the public blob with the trailing run of `=` padding
removed, and consequently it never ends in `=` (its last character is
either `:` or a character that survived the `=`-stripping). -/
theorem C7_fingerprint_strips_padding (publicKeyData : List Nat) :
    generateFingerprint publicKeyData =
      "SHA256:".data ++ stripTrailingEq (base64Encode (sha256 publicKeyData)) ∧
    (generateFingerprint publicKeyData).getLast? ≠ some '=' := by
  refine ⟨rfl, ?_⟩
  show ("SHA256:".data ++ stripTrailingEq (base64Encode (sha256 publicKeyData))).getLast? ≠
    some '='
  generalize base64Encode (sha256 publicKeyData) = l
  unfold stripTrailingEq
  cases h : l.reverse.dropWhile (fun c => c = '=') with
  | nil => simp [h]
  | cons a as =>
    have ha : (fun c : Char => decide (c = '=')) a = false :=
      dropWhile_head_false _ l.reverse a as h
    rw [List.getLast?_append_of_ne_nil _ (by simp), List.getLast?_reverse]
    simp only [List.head?_cons]
    intro hcontra
    have : a = '=' := by injection hcontra
    simp [this] at ha

/-- C10 witness: the theorem applied to the concrete header line
`PuTTY-User-Key-File-X: ssh-rsa` and the initial loop state. -/
theorem C10_digitless_header_witness :
    (processLine initialParseState "PuTTY-User-Key-File-X: ssh-rsa".data).data.version = 2 ∧
    checkVersion 2 = .ok () ∧
    parsePPKStructure ["PuTTY-User-Key-File-X: ssh-rsa".data] =
      { version := 2, algorithm := "ssh-rsa".data } :=
  C10_digitless_header_defaults_to_version_2 "PuTTY-User-Key-File-X: ssh-rsa".data
    initialParseState (by decide) (by decide)

end Ppk
